import Mathlib

/-!
Shallow embedding of the `did_verifier` ink! contract (src/contract.rs).

Modelling choices:
* `AccountId` is an opaque, equality-comparable identifier; embedded as `Nat`.
* `proof_hash : [u8; 32]` is a fixed-size byte array compared only for
  equality; embedded as `List Nat` (the byte sequence).
* `ink_storage::collections::HashMap<AccountId, Identity>` is embedded as an
  association list `List (Nat × Identity)`; `insert` replaces the binding in
  place, `get` is first-key lookup.
* `ink_storage::collections::HashSet<AccountId>` is embedded as a duplicate-free
  `List Nat`: `insert` adds the element only when absent (ink's insert of a
  present member leaves the set unchanged), `take` removes it.
* Each `#[ink(message)]` taking `&mut self` becomes a state transformer
  `DIDVerifier → args → DIDVerifier × Except String Unit`, with the caller
  (`self.env().caller()`) passed explicitly.  An early `return Err(..)` in the
  source happens before any mutation, so it is embedded as returning the input
  state together with the error string.
* Event emission (`emit_event`) has no effect on contract state and is not
  modelled.
-/

namespace DIDV

/-- Identity struct storing user information (src/contract.rs lines 12-19). -/
structure Identity where
  name : String
  age : Nat
  document_id : String
  proof_hash : List Nat
  is_verified : Bool
  verifier : Option Nat
deriving DecidableEq, Repr

/-- Contract storage (src/contract.rs lines 23-27): the identities map, the
set of approved verifiers, and the contract owner. -/
structure DIDVerifier where
  identities : List (Nat × Identity)
  verifiers : List Nat
  owner : Nat
deriving DecidableEq, Repr

/-- Lookup in the association list embedding the identities `HashMap`. -/
def mapLookup (m : List (Nat × Identity)) (k : Nat) : Option Identity :=
  match m with
  | [] => none
  | (k2, v) :: rest => if k2 = k then some v else mapLookup rest k

/-- Insert into the association list embedding the identities `HashMap`:
replaces the binding for `k` in place when present, appends it otherwise. -/
def mapInsert (m : List (Nat × Identity)) (k : Nat) (v : Identity) :
    List (Nat × Identity) :=
  match m with
  | [] => [(k, v)]
  | (k2, v2) :: rest =>
      if k2 = k then (k, v) :: rest else (k2, v2) :: mapInsert rest k v

/-- `HashSet::insert`: adds the element only when absent, so inserting an
already-present member leaves the set unchanged. -/
def setInsert (l : List Nat) (v : Nat) : List Nat :=
  if v ∈ l then l else v :: l

/-- `HashSet::take`: removes the element when present, no-op otherwise. -/
def setRemove (l : List Nat) (v : Nat) : List Nat :=
  l.filter (fun x => x ≠ v)

/-- Constructor `new` (src/contract.rs lines 49-56): owner is the deployer,
both collections start empty. -/
def DIDVerifier.new (caller : Nat) : DIDVerifier :=
  { identities := [], verifiers := [], owner := caller }

/-- `submit_identity` (src/contract.rs lines 60-93): fails when the caller
already has an identity, otherwise stores a fresh unverified record. -/
def DIDVerifier.submit_identity (s : DIDVerifier) (caller : Nat) (name : String)
    (age : Nat) (document_id : String) (proof_hash : List Nat) :
    DIDVerifier × Except String Unit :=
  if (mapLookup s.identities caller).isSome then
    (s, .error "Identity already submitted")
  else
    let identity : Identity :=
      { name := name, age := age, document_id := document_id,
        proof_hash := proof_hash, is_verified := false, verifier := none }
    ({ s with identities := mapInsert s.identities caller identity }, .ok ())

/-- `verify_identity` (src/contract.rs lines 97-126): checks authorization,
existence, not-already-verified, and hash match, in that order, then marks
the identity verified by the caller. -/
def DIDVerifier.verify_identity (s : DIDVerifier) (caller : Nat) (account : Nat)
    (proof_hash : List Nat) : DIDVerifier × Except String Unit :=
  if caller ∉ s.verifiers then
    (s, .error "Only verifiers can verify identities")
  else
    match mapLookup s.identities account with
    | none => (s, .error "Identity not found")
    | some identity =>
        if identity.is_verified then
          (s, .error "Identity already verified")
        else if identity.proof_hash ≠ proof_hash then
          (s, .error "Proof hash does not match")
        else
          let verified : Identity :=
            { identity with is_verified := true, verifier := some caller }
          ({ s with identities := mapInsert s.identities account verified },
           .ok ())

/-- `add_verifier` (src/contract.rs lines 130-140): owner-only insertion into
the verifier set. -/
def DIDVerifier.add_verifier (s : DIDVerifier) (caller : Nat) (verifier : Nat) :
    DIDVerifier × Except String Unit :=
  if caller ≠ s.owner then
    (s, .error "Only the owner can add verifiers")
  else
    ({ s with verifiers := setInsert s.verifiers verifier }, .ok ())

/-- `remove_verifier` (src/contract.rs lines 144-154): owner-only removal from
the verifier set. -/
def DIDVerifier.remove_verifier (s : DIDVerifier) (caller : Nat) (verifier : Nat) :
    DIDVerifier × Except String Unit :=
  if caller ≠ s.owner then
    (s, .error "Only the owner can remove verifiers")
  else
    ({ s with verifiers := setRemove s.verifiers verifier }, .ok ())

/-- `is_verified` (src/contract.rs lines 158-163): true when the account has
an identity whose `is_verified` flag is set. -/
def DIDVerifier.is_verified (s : DIDVerifier) (account : Nat) : Bool :=
  match mapLookup s.identities account with
  | some identity => identity.is_verified
  | none => false

/-- `get_identity` (src/contract.rs lines 167-169): returns the stored record
when present. -/
def DIDVerifier.get_identity (s : DIDVerifier) (account : Nat) : Option Identity :=
  mapLookup s.identities account

/-- `is_verifier` (src/contract.rs lines 173-175): membership test on the
verifier set. -/
def DIDVerifier.is_verifier (s : DIDVerifier) (account : Nat) : Bool :=
  decide (account ∈ s.verifiers)

/-- One external mutating call, with its caller. -/
inductive Op where
  | submit (caller : Nat) (name : String) (age : Nat) (document_id : String)
      (proof_hash : List Nat)
  | verify (caller : Nat) (account : Nat) (proof_hash : List Nat)
  | addVerifier (caller : Nat) (verifier : Nat)
  | removeVerifier (caller : Nat) (verifier : Nat)
deriving DecidableEq, Repr

/-- Apply one call, returning the new state and the call's result. -/
def applyOp (s : DIDVerifier) : Op → DIDVerifier × Except String Unit
  | .submit caller name age document_id proof_hash =>
      s.submit_identity caller name age document_id proof_hash
  | .verify caller account proof_hash =>
      s.verify_identity caller account proof_hash
  | .addVerifier caller verifier => s.add_verifier caller verifier
  | .removeVerifier caller verifier => s.remove_verifier caller verifier

/-- Run a sequence of calls, keeping only the evolving state (a failed call
leaves the state as it was). -/
def run (s : DIDVerifier) (ops : List Op) : DIDVerifier :=
  ops.foldl (fun t op => (applyOp t op).1) s

/-! Section: Basic lemmas about the collection embeddings -/

theorem mapLookup_mapInsert_self (m : List (Nat × Identity)) (k : Nat)
    (v : Identity) : mapLookup (mapInsert m k v) k = some v := by
  induction m with
  | nil => simp [mapInsert, mapLookup]
  | cons p rest ih =>
      obtain ⟨k2, v2⟩ := p
      by_cases hk : k2 = k
      · simp [mapInsert, mapLookup, hk]
      · simp [mapInsert, mapLookup, hk, ih]

theorem mapLookup_mapInsert_ne (m : List (Nat × Identity)) (k k2 : Nat)
    (v : Identity) (hne : k2 ≠ k) :
    mapLookup (mapInsert m k v) k2 = mapLookup m k2 := by
  have hne2 : ¬ k = k2 := fun h => hne h.symm
  induction m with
  | nil => simp [mapInsert, mapLookup, hne2]
  | cons p rest ih =>
      obtain ⟨k3, v3⟩ := p
      by_cases hk : k3 = k
      · subst hk
        simp [mapInsert, mapLookup, hne2]
      · by_cases hk2 : k3 = k2
        · simp [mapInsert, mapLookup, hk, hk2, hne]
        · simp [mapInsert, mapLookup, hk, hk2, ih]

theorem run_nil (s : DIDVerifier) : run s [] = s := rfl

theorem run_append_singleton (s : DIDVerifier) (l : List Op) (op : Op) :
    run s (l ++ [op]) = (applyOp (run s l) op).1 := by
  simp [run, List.foldl_append]

/-- Every error path of every operation returns the input state untouched:
in the source, each `return Err(..)` occurs before any storage write. -/
theorem applyOp_error_state (s : DIDVerifier) (op : Op) (e : String)
    (h : (applyOp s op).2 = .error e) : (applyOp s op).1 = s := by
  cases op with
  | submit c n a d p =>
      by_cases hc : (mapLookup s.identities c).isSome <;>
        simp [applyOp, DIDVerifier.submit_identity, hc] at h ⊢
  | verify c acct p =>
      by_cases hmem : c ∈ s.verifiers
      · rcases hacc : mapLookup s.identities acct with _ | idacc
        · simp [applyOp, DIDVerifier.verify_identity, hmem, hacc]
        · by_cases hver : idacc.is_verified = true
          · simp [applyOp, DIDVerifier.verify_identity, hmem, hacc, hver]
          · by_cases hph : idacc.proof_hash = p
            · simp [applyOp, DIDVerifier.verify_identity, hmem, hacc, hver,
                hph] at h
            · simp [applyOp, DIDVerifier.verify_identity, hmem, hacc, hver,
                hph]
      · simp [applyOp, DIDVerifier.verify_identity, hmem]
  | addVerifier c v =>
      by_cases hc : c = s.owner <;>
        simp [applyOp, DIDVerifier.add_verifier, hc] at h ⊢
  | removeVerifier c v =>
      by_cases hc : c = s.owner <;>
        simp [applyOp, DIDVerifier.remove_verifier, hc] at h ⊢

/-! Section: Claim theorems -/

/-- C1: `verify_identity` applies its checks in the exact order
authorization → existence → already-verified → hash match.  A non-verifier
caller gets `NotAuthorized` ("Only verifiers can verify identities")
regardless of the other conditions; otherwise a missing identity gives
`NotFound` ("Identity not found"); otherwise an already-verified identity
gives `AlreadyVerified` ("Identity already verified"); otherwise a hash
mismatch gives `ProofMismatch` ("Proof hash does not match"); otherwise the
call succeeds. -/
theorem verify_identity_check_order (s : DIDVerifier) (caller account : Nat)
    (h : List Nat) :
    (caller ∉ s.verifiers →
      s.verify_identity caller account h =
        (s, .error "Only verifiers can verify identities"))
  ∧ (caller ∈ s.verifiers → mapLookup s.identities account = none →
      s.verify_identity caller account h = (s, .error "Identity not found"))
  ∧ (∀ id, caller ∈ s.verifiers → mapLookup s.identities account = some id →
      id.is_verified = true →
      s.verify_identity caller account h =
        (s, .error "Identity already verified"))
  ∧ (∀ id, caller ∈ s.verifiers → mapLookup s.identities account = some id →
      id.is_verified = false → id.proof_hash ≠ h →
      s.verify_identity caller account h =
        (s, .error "Proof hash does not match"))
  ∧ (∀ id, caller ∈ s.verifiers → mapLookup s.identities account = some id →
      id.is_verified = false → id.proof_hash = h →
      (s.verify_identity caller account h).2 = .ok ()) := by
  refine ⟨?_, ?_, ?_, ?_, ?_⟩
  · intro hmem
    simp [DIDVerifier.verify_identity, hmem]
  · intro hmem hacc
    simp [DIDVerifier.verify_identity, hmem, hacc]
  · intro id hmem hacc hver
    simp [DIDVerifier.verify_identity, hmem, hacc, hver]
  · intro id hmem hacc hver hph
    simp [DIDVerifier.verify_identity, hmem, hacc, hver, hph]
  · intro id hmem hacc hver hph
    simp [DIDVerifier.verify_identity, hmem, hacc, hver, hph]

/-- Witness for C1 at a concrete state where authorization, existence and
hash match are all violated at once: the authorization error wins. -/
theorem verify_identity_check_order_witness :
    DIDVerifier.verify_identity ⟨[], [], 0⟩ 5 7 [1] =
      (⟨[], [], 0⟩, .error "Only verifiers can verify identities") :=
  (verify_identity_check_order ⟨[], [], 0⟩ 5 7 [1]).1 (by decide)

/-- C3: whenever an operation returns an error, the resulting state
(identities, verifiers and owner) is exactly the starting state: no failure
path performs a partial mutation. -/
theorem op_error_no_mutation (s : DIDVerifier) (op : Op) (e : String)
    (h : (applyOp s op).2 = .error e) : (applyOp s op).1 = s :=
  applyOp_error_state s op e h

/-- Witness for C3: a non-owner `add_verifier` call fails and leaves the
concrete state unchanged. -/
theorem op_error_no_mutation_witness :
    (applyOp ⟨[], [], 0⟩ (.addVerifier 3 4)).1 = ⟨[], [], 0⟩ :=
  op_error_no_mutation ⟨[], [], 0⟩ (.addVerifier 3 4)
    "Only the owner can add verifiers" rfl

/-- C4: for an account with no existing identity, the first submission
succeeds, the second returns `AlreadySubmitted` ("Identity already
submitted"), and after both calls the stored record equals the first
submission's fields, unverified and with no verifier. -/
theorem submit_twice (s : DIDVerifier) (A : Nat) (n1 : String) (a1 : Nat)
    (d1 : String) (p1 : List Nat) (n2 : String) (a2 : Nat) (d2 : String)
    (p2 : List Nat) (hnone : mapLookup s.identities A = none) :
    (s.submit_identity A n1 a1 d1 p1).2 = .ok () ∧
    ((s.submit_identity A n1 a1 d1 p1).1.submit_identity A n2 a2 d2 p2).2 =
      .error "Identity already submitted" ∧
    mapLookup
        ((s.submit_identity A n1 a1 d1 p1).1.submit_identity A n2 a2 d2
          p2).1.identities A =
      some ⟨n1, a1, d1, p1, false, none⟩ := by
  have hl : mapLookup (mapInsert s.identities A ⟨n1, a1, d1, p1, false, none⟩)
      A = some ⟨n1, a1, d1, p1, false, none⟩ :=
    mapLookup_mapInsert_self s.identities A ⟨n1, a1, d1, p1, false, none⟩
  refine ⟨?_, ?_, ?_⟩ <;>
    simp [DIDVerifier.submit_identity, hnone, hl]

/-- Witness for C4 at a concrete empty registry and account 1. -/
theorem submit_twice_witness :
    (DIDVerifier.submit_identity (DIDVerifier.new 0) 1 "Alice" 30 "doc1"
      [7]).2 = .ok () ∧
    ((DIDVerifier.submit_identity (DIDVerifier.new 0) 1 "Alice" 30 "doc1"
        [7]).1.submit_identity 1 "Bob" 40 "doc2" [8]).2 =
      .error "Identity already submitted" ∧
    mapLookup
        ((DIDVerifier.submit_identity (DIDVerifier.new 0) 1 "Alice" 30 "doc1"
          [7]).1.submit_identity 1 "Bob" 40 "doc2" [8]).1.identities 1 =
      some ⟨"Alice", 30, "doc1", [7], false, none⟩ :=
  submit_twice (DIDVerifier.new 0) 1 "Alice" 30 "doc1" [7] "Bob" 40 "doc2"
    [8] rfl

/-- C5: a successful `verify_identity` call by caller `c` leaves the target
record's `name`, `age`, `document_id` and `proof_hash` unchanged while
setting `is_verified` to `true` and `verifier` to `some c`, and modifies no
other identity entry, nor the verifier set, nor the owner. -/
theorem verify_identity_success_frame (s : DIDVerifier) (c a : Nat)
    (h : List Nat) (hok : (s.verify_identity c a h).2 = .ok ()) :
    ∃ id, mapLookup s.identities a = some id ∧
      mapLookup (s.verify_identity c a h).1.identities a =
        some { name := id.name, age := id.age, document_id := id.document_id,
               proof_hash := id.proof_hash, is_verified := true,
               verifier := some c } ∧
      (∀ b, b ≠ a →
        mapLookup (s.verify_identity c a h).1.identities b =
          mapLookup s.identities b) ∧
      (s.verify_identity c a h).1.verifiers = s.verifiers ∧
      (s.verify_identity c a h).1.owner = s.owner := by
  by_cases hmem : c ∈ s.verifiers
  · rcases hacc : mapLookup s.identities a with _ | id
    · simp [DIDVerifier.verify_identity, hmem, hacc] at hok
    · by_cases hver : id.is_verified = true
      · simp [DIDVerifier.verify_identity, hmem, hacc, hver] at hok
      · by_cases hph : id.proof_hash = h
        · refine ⟨id, rfl, ?_, ?_, ?_, ?_⟩
          · simp [DIDVerifier.verify_identity, hmem, hacc, hver, hph,
              mapLookup_mapInsert_self]
          · intro b hb
            simp [DIDVerifier.verify_identity, hmem, hacc, hver, hph,
              mapLookup_mapInsert_ne _ _ _ _ hb]
          · simp [DIDVerifier.verify_identity, hmem, hacc, hver, hph]
          · simp [DIDVerifier.verify_identity, hmem, hacc, hver, hph]
        · simp [DIDVerifier.verify_identity, hmem, hacc, hver, hph] at hok
  · simp [DIDVerifier.verify_identity, hmem] at hok

/-- Witness for C5: verifier 2 successfully verifies account 1 in a concrete
registry. -/
theorem verify_identity_success_frame_witness :
    ∃ id, mapLookup
        (DIDVerifier.mk [(1, ⟨"Alice", 30, "doc1", [7], false, none⟩)] [2]
          0).identities 1 = some id ∧
      mapLookup (DIDVerifier.verify_identity
          ⟨[(1, ⟨"Alice", 30, "doc1", [7], false, none⟩)], [2], 0⟩ 2 1
          [7]).1.identities 1 =
        some { name := id.name, age := id.age, document_id := id.document_id,
               proof_hash := id.proof_hash, is_verified := true,
               verifier := some 2 } ∧
      (∀ b, b ≠ 1 →
        mapLookup (DIDVerifier.verify_identity
            ⟨[(1, ⟨"Alice", 30, "doc1", [7], false, none⟩)], [2], 0⟩ 2 1
            [7]).1.identities b =
          mapLookup (DIDVerifier.mk
            [(1, ⟨"Alice", 30, "doc1", [7], false, none⟩)] [2] 0).identities
            b) ∧
      (DIDVerifier.verify_identity
          ⟨[(1, ⟨"Alice", 30, "doc1", [7], false, none⟩)], [2], 0⟩ 2 1
          [7]).1.verifiers = [2] ∧
      (DIDVerifier.verify_identity
          ⟨[(1, ⟨"Alice", 30, "doc1", [7], false, none⟩)], [2], 0⟩ 2 1
          [7]).1.owner = 0 :=
  verify_identity_success_frame
    ⟨[(1, ⟨"Alice", 30, "doc1", [7], false, none⟩)], [2], 0⟩ 2 1 [7] rfl

/-- C6: owner-called `add_verifier` makes `is_verifier` true and owner-called
`remove_verifier` makes it false; adding a present member or removing an
absent one succeeds and leaves the verifier set unchanged; either call from
a non-owner returns `NotAuthorized` with the state unchanged. -/
theorem verifier_management (s : DIDVerifier) (c v : Nat) :
    (c = s.owner →
      (s.add_verifier c v).2 = .ok () ∧
      (s.add_verifier c v).1.is_verifier v = true ∧
      (s.remove_verifier c v).2 = .ok () ∧
      (s.remove_verifier c v).1.is_verifier v = false)
  ∧ (c = s.owner → v ∈ s.verifiers → (s.add_verifier c v).1 = s)
  ∧ (c = s.owner → v ∉ s.verifiers → (s.remove_verifier c v).1 = s)
  ∧ (c ≠ s.owner →
      s.add_verifier c v = (s, .error "Only the owner can add verifiers") ∧
      s.remove_verifier c v =
        (s, .error "Only the owner can remove verifiers")) := by
  refine ⟨?_, ?_, ?_, ?_⟩
  · intro hc
    refine ⟨?_, ?_, ?_, ?_⟩
    · simp [DIDVerifier.add_verifier, hc]
    · by_cases hv : v ∈ s.verifiers <;>
        simp [DIDVerifier.add_verifier, DIDVerifier.is_verifier, hc,
          setInsert, hv]
    · simp [DIDVerifier.remove_verifier, hc]
    · simp [DIDVerifier.remove_verifier, DIDVerifier.is_verifier, hc,
        setRemove, List.mem_filter]
  · intro hc hv
    simp [DIDVerifier.add_verifier, hc, setInsert, hv]
  · intro hc hv
    have hfix : s.verifiers.filter (fun x => !decide (x = v)) = s.verifiers := by
      apply List.filter_eq_self.mpr
      intro x hx
      simp only [Bool.not_eq_true', decide_eq_false_iff_not]
      intro hxv
      exact hv (hxv ▸ hx)
    simp [DIDVerifier.remove_verifier, hc, setRemove, hfix]
  · intro hc
    simp [DIDVerifier.add_verifier, DIDVerifier.remove_verifier, hc]

/-- Witness for C6: adding the already-present verifier 9 leaves the
concrete state unchanged, and a non-owner removal is rejected. -/
theorem verifier_management_witness :
    (DIDVerifier.add_verifier ⟨[], [9], 0⟩ 0 9).1 = ⟨[], [9], 0⟩ ∧
    DIDVerifier.remove_verifier ⟨[], [9], 0⟩ 3 9 =
      (⟨[], [9], 0⟩, .error "Only the owner can remove verifiers") :=
  ⟨(verifier_management ⟨[], [9], 0⟩ 0 9).2.1 rfl (by decide),
   ((verifier_management ⟨[], [9], 0⟩ 3 9).2.2.2 (by decide)).2⟩

/-- C7: `is_verified` returns true exactly when the identities map holds an
entry for the account whose `is_verified` flag is set, and false for an
account with no entry; it is a pure read, taking the state only as input. -/
theorem is_verified_spec (s : DIDVerifier) (a : Nat) :
    (s.is_verified a = true ↔
      ∃ id, mapLookup s.identities a = some id ∧ id.is_verified = true)
  ∧ (mapLookup s.identities a = none → s.is_verified a = false) := by
  rcases hacc : mapLookup s.identities a with _ | id <;>
    simp [DIDVerifier.is_verified, hacc]

/-- Witness for C7: an unknown account reads as unverified. -/
theorem is_verified_spec_witness :
    DIDVerifier.is_verified ⟨[], [], 0⟩ 5 = false :=
  (is_verified_spec ⟨[], [], 0⟩ 5).2 rfl

/-- C8: a successful `remove_verifier` never touches identity records: a
record verified by `v` keeps `is_verified = true` and `verifier = some v`,
and `is_verified` on its account still answers true, even though
`is_verifier v` now answers false. -/
theorem remove_verifier_frame_identities (s : DIDVerifier) (v a : Nat)
    (id : Identity) (hl : mapLookup s.identities a = some id)
    (hv : id.is_verified = true) (hvr : id.verifier = some v) :
    (s.remove_verifier s.owner v).2 = .ok () ∧
    mapLookup (s.remove_verifier s.owner v).1.identities a = some id ∧
    (s.remove_verifier s.owner v).1.is_verified a = true ∧
    (s.remove_verifier s.owner v).1.is_verifier v = false := by
  refine ⟨?_, ?_, ?_, ?_⟩ <;>
    simp [DIDVerifier.remove_verifier, DIDVerifier.is_verified,
      DIDVerifier.is_verifier, setRemove, hl, hv, List.mem_filter]

/-- Witness for C8: removing verifier 2 keeps account 1 verified by 2. -/
theorem remove_verifier_frame_identities_witness :
    (DIDVerifier.remove_verifier
      ⟨[(1, ⟨"Alice", 30, "doc1", [7], true, some 2⟩)], [2], 0⟩ 0 2).2 =
        .ok () ∧
    mapLookup (DIDVerifier.remove_verifier
        ⟨[(1, ⟨"Alice", 30, "doc1", [7], true, some 2⟩)], [2], 0⟩ 0
        2).1.identities 1 = some ⟨"Alice", 30, "doc1", [7], true, some 2⟩ ∧
    (DIDVerifier.remove_verifier
        ⟨[(1, ⟨"Alice", 30, "doc1", [7], true, some 2⟩)], [2], 0⟩ 0
        2).1.is_verified 1 = true ∧
    (DIDVerifier.remove_verifier
        ⟨[(1, ⟨"Alice", 30, "doc1", [7], true, some 2⟩)], [2], 0⟩ 0
        2).1.is_verifier 2 = false :=
  remove_verifier_frame_identities
    ⟨[(1, ⟨"Alice", 30, "doc1", [7], true, some 2⟩)], [2], 0⟩ 2 1
    ⟨"Alice", 30, "doc1", [7], true, some 2⟩ rfl rfl rfl

/-- C9: no self-verification restriction exists: a verifier with a
submitted, unverified identity can verify itself with its own stored hash,
ending verified with itself recorded as the verifier. -/
theorem self_verification_allowed (s : DIDVerifier) (v : Nat) (id : Identity)
    (hmem : v ∈ s.verifiers) (hl : mapLookup s.identities v = some id)
    (hu : id.is_verified = false) :
    (s.verify_identity v v id.proof_hash).2 = .ok () ∧
    mapLookup (s.verify_identity v v id.proof_hash).1.identities v =
      some { name := id.name, age := id.age, document_id := id.document_id,
             proof_hash := id.proof_hash, is_verified := true,
             verifier := some v } := by
  refine ⟨?_, ?_⟩ <;>
    simp [DIDVerifier.verify_identity, hmem, hl, hu, mapLookup_mapInsert_self]

/-- Witness for C9: verifier 2 verifies its own identity. -/
theorem self_verification_allowed_witness :
    (DIDVerifier.verify_identity
      ⟨[(2, ⟨"Vera", 9, "dv", [3], false, none⟩)], [2], 0⟩ 2 2 [3]).2 =
        .ok () ∧
    mapLookup (DIDVerifier.verify_identity
        ⟨[(2, ⟨"Vera", 9, "dv", [3], false, none⟩)], [2], 0⟩ 2 2
        [3]).1.identities 2 = some ⟨"Vera", 9, "dv", [3], true, some 2⟩ :=
  self_verification_allowed
    ⟨[(2, ⟨"Vera", 9, "dv", [3], false, none⟩)], [2], 0⟩ 2
    ⟨"Vera", 9, "dv", [3], false, none⟩ (by decide) rfl rfl

/-- C10: the owner is not implicitly a verifier: right after construction
`is_verifier owner` is false, and as long as the owner is not in the
verifier set, an owner-called `verify_identity` fails with `NotAuthorized`
on any account. -/
theorem owner_not_implicit_verifier (c a : Nat) (h : List Nat) :
    (DIDVerifier.new c).is_verifier c = false ∧
    (∀ s : DIDVerifier, s.owner ∉ s.verifiers →
      s.verify_identity s.owner a h =
        (s, .error "Only verifiers can verify identities")) := by
  refine ⟨by simp [DIDVerifier.new, DIDVerifier.is_verifier], ?_⟩
  intro s hs
  simp [DIDVerifier.verify_identity, hs]

/-- Witness for C10: in a fresh registry owned by 0, the owner's own verify
call on account 1 is rejected as unauthorized. -/
theorem owner_not_implicit_verifier_witness :
    DIDVerifier.verify_identity ⟨[], [], 0⟩ 0 1 [] =
      (⟨[], [], 0⟩, .error "Only verifiers can verify identities") :=
  (owner_not_implicit_verifier 0 1 []).2 ⟨[], [], 0⟩ (by decide)

/-! Section: Provenance of verified identities (claim C2) -/

theorem applyOp_identities_addVerifier (s : DIDVerifier) (c v : Nat) :
    (applyOp s (.addVerifier c v)).1.identities = s.identities := by
  by_cases hc : c = s.owner <;> simp [applyOp, DIDVerifier.add_verifier, hc]

theorem applyOp_identities_removeVerifier (s : DIDVerifier) (c v : Nat) :
    (applyOp s (.removeVerifier c v)).1.identities = s.identities := by
  by_cases hc : c = s.owner <;> simp [applyOp, DIDVerifier.remove_verifier, hc]

/-- Extending a trace by one further call preserves an existing
verification-provenance decomposition (the extra call joins the suffix). -/
theorem exists_decomp_extend (c : Nat) (l : List Op) (op : Op) (a : Nat)
    (id : Identity)
    (hx : ∃ pre vc h post, l = pre ++ Op.verify vc a h :: post ∧
      ((run (DIDVerifier.new c) pre).verify_identity vc a h).2 = .ok () ∧
      id.verifier = some vc ∧ id.proof_hash = h) :
    ∃ pre vc h post, l ++ [op] = pre ++ Op.verify vc a h :: post ∧
      ((run (DIDVerifier.new c) pre).verify_identity vc a h).2 = .ok () ∧
      id.verifier = some vc ∧ id.proof_hash = h := by
  obtain ⟨pre, vc, h, post, heq, hok, hvr, hph⟩ := hx
  exact ⟨pre, vc, h, post ++ [op], by rw [heq]; simp, hok, hvr, hph⟩

/-- C2: in any state reachable from a fresh registry, every identity stored
as verified was verified by some successful `verify_identity` call in the
trace: its `verifier` is `some` of that call's caller, and its stored
`proof_hash` equals the hash supplied by that call. -/
theorem verified_identity_provenance (c : Nat) (ops : List Op) (a : Nat)
    (id : Identity)
    (hl : mapLookup (run (DIDVerifier.new c) ops).identities a = some id)
    (hv : id.is_verified = true) :
    ∃ pre vc h post, ops = pre ++ Op.verify vc a h :: post ∧
      ((run (DIDVerifier.new c) pre).verify_identity vc a h).2 = .ok () ∧
      id.verifier = some vc ∧ id.proof_hash = h := by
  induction ops using List.reverseRecOn with
  | nil => simp [run, DIDVerifier.new, mapLookup] at hl
  | append_singleton l op ih =>
      rw [run_append_singleton] at hl
      cases op with
      | submit sc n ag d p =>
          by_cases hsc : (mapLookup (run (DIDVerifier.new c) l).identities
              sc).isSome
          · have hst : (applyOp (run (DIDVerifier.new c) l)
                (.submit sc n ag d p)).1 = run (DIDVerifier.new c) l := by
              simp [applyOp, DIDVerifier.submit_identity, hsc]
            rw [hst] at hl
            exact exists_decomp_extend c l _ a id (ih hl)
          · by_cases hsa : sc = a
            · subst hsa
              have hst : mapLookup (applyOp (run (DIDVerifier.new c) l)
                  (.submit sc n ag d p)).1.identities sc =
                  some ⟨n, ag, d, p, false, none⟩ := by
                simp [applyOp, DIDVerifier.submit_identity, hsc,
                  mapLookup_mapInsert_self]
              rw [hst] at hl
              obtain rfl := Option.some.injEq _ _ ▸ hl
              simp at hv
            · have hst : mapLookup (applyOp (run (DIDVerifier.new c) l)
                  (.submit sc n ag d p)).1.identities a =
                  mapLookup (run (DIDVerifier.new c) l).identities a := by
                simp [applyOp, DIDVerifier.submit_identity, hsc,
                  mapLookup_mapInsert_ne _ _ _ _ (fun hh => hsa hh.symm)]
              rw [hst] at hl
              exact exists_decomp_extend c l _ a id (ih hl)
      | verify vc acct p =>
          by_cases hmem : vc ∈ (run (DIDVerifier.new c) l).verifiers
          · rcases hacc : mapLookup (run (DIDVerifier.new c) l).identities
                acct with _ | idacc
            · have hst : (applyOp (run (DIDVerifier.new c) l)
                  (.verify vc acct p)).1 = run (DIDVerifier.new c) l := by
                simp [applyOp, DIDVerifier.verify_identity, hmem, hacc]
              rw [hst] at hl
              exact exists_decomp_extend c l _ a id (ih hl)
            · by_cases hver : idacc.is_verified = true
              · have hst : (applyOp (run (DIDVerifier.new c) l)
                    (.verify vc acct p)).1 = run (DIDVerifier.new c) l := by
                  simp [applyOp, DIDVerifier.verify_identity, hmem, hacc,
                    hver]
                rw [hst] at hl
                exact exists_decomp_extend c l _ a id (ih hl)
              · by_cases hph : idacc.proof_hash = p
                · by_cases haa : acct = a
                  · subst haa
                    have hst : mapLookup (applyOp (run (DIDVerifier.new c) l)
                        (.verify vc acct p)).1.identities acct =
                        some { name := idacc.name, age := idacc.age,
                               document_id := idacc.document_id,
                               proof_hash := idacc.proof_hash,
                               is_verified := true,
                               verifier := some vc } := by
                      simp [applyOp, DIDVerifier.verify_identity, hmem, hacc,
                        hver, hph, mapLookup_mapInsert_self]
                    rw [hst] at hl
                    obtain rfl := Option.some.injEq _ _ ▸ hl
                    refine ⟨l, vc, p, [], rfl, ?_, rfl, hph⟩
                    simp [DIDVerifier.verify_identity, hmem, hacc, hver, hph]
                  · have hst : mapLookup (applyOp (run (DIDVerifier.new c) l)
                        (.verify vc acct p)).1.identities a =
                        mapLookup (run (DIDVerifier.new c) l).identities
                          a := by
                      simp [applyOp, DIDVerifier.verify_identity, hmem, hacc,
                        hver, hph,
                        mapLookup_mapInsert_ne _ _ _ _
                          (fun hh => haa hh.symm)]
                    rw [hst] at hl
                    exact exists_decomp_extend c l _ a id (ih hl)
                · have hst : (applyOp (run (DIDVerifier.new c) l)
                      (.verify vc acct p)).1 = run (DIDVerifier.new c) l := by
                    simp [applyOp, DIDVerifier.verify_identity, hmem, hacc,
                      hver, hph]
                  rw [hst] at hl
                  exact exists_decomp_extend c l _ a id (ih hl)
          · have hst : (applyOp (run (DIDVerifier.new c) l)
                (.verify vc acct p)).1 = run (DIDVerifier.new c) l := by
              simp [applyOp, DIDVerifier.verify_identity, hmem]
            rw [hst] at hl
            exact exists_decomp_extend c l _ a id (ih hl)
      | addVerifier vc v =>
          rw [show (applyOp (run (DIDVerifier.new c) l)
              (.addVerifier vc v)).1.identities =
              (run (DIDVerifier.new c) l).identities from
            applyOp_identities_addVerifier _ vc v] at hl
          exact exists_decomp_extend c l _ a id (ih hl)
      | removeVerifier vc v =>
          rw [show (applyOp (run (DIDVerifier.new c) l)
              (.removeVerifier vc v)).1.identities =
              (run (DIDVerifier.new c) l).identities from
            applyOp_identities_removeVerifier _ vc v] at hl
          exact exists_decomp_extend c l _ a id (ih hl)

/-- Witness for C2: a concrete trace (submit by 1, owner adds verifier 2,
2 verifies 1) whose final state holds a verified identity for account 1. -/
theorem verified_identity_provenance_witness :
    ∃ pre vc h post,
      [Op.submit 1 "Alice" 30 "doc1" [7], Op.addVerifier 0 2,
        Op.verify 2 1 [7]] = pre ++ Op.verify vc 1 h :: post ∧
      ((run (DIDVerifier.new 0) pre).verify_identity vc 1 h).2 = .ok () ∧
      (Identity.mk "Alice" 30 "doc1" [7] true (some 2)).verifier = some vc ∧
      (Identity.mk "Alice" 30 "doc1" [7] true (some 2)).proof_hash = h :=
  verified_identity_provenance 0
    [Op.submit 1 "Alice" 30 "doc1" [7], Op.addVerifier 0 2,
      Op.verify 2 1 [7]] 1 ⟨"Alice", 30, "doc1", [7], true, some 2⟩
    (by decide) rfl

end DIDV
